import Mathlib

/-!
Verification of the sampling approval routes of goose-server
(src/crates/goose-server/src/routes/sampling.rs).

The file embeds the data model and the two route handlers
(`handle_sampling_request`, `handle_sampling_approval`, and the shared
`process_sampling` routine) as pure Lean functions.  External
collaborators — the agent registry reached through
`AppState.get_agent_for_route`, the extension manager's provider handle,
and the provider's `complete` call — are modelled as capability fields
(functions), following the spec's own suggestion to treat them as narrow
capability interfaces.
-/

namespace Sampling

/-- The two message roles of the wire protocol (rmcp `Role`). -/
inductive Role where
  | user
  | assistant
deriving DecidableEq, Repr

/-- Wire-level message content (rmcp `Content`): text, image (raw data
plus MIME type), or some other extensible kind, carried opaquely. -/
inductive Content where
  | text (s : String)
  | image (data : String) (mimeType : String)
  | other (kind : String)
deriving DecidableEq, Repr

/-- `Content::as_text()`: the text payload when the content is text. -/
def Content.asText : Content → Option String
  | .text s => some s
  | _ => none

/-- Wire-level `SamplingMessage`: a role paired with content. -/
structure SamplingMessage where
  role : Role
  content : Content
deriving DecidableEq, Repr

/-- Opaque JSON values (`serde_json::Value`), used only for the
pass-through `metadata` field. -/
inductive Json where
  | null
  | bool (b : Bool)
  | num (n : Float)
  | str (s : String)
  | arr (elems : List Json)
  | obj (fields : List (String × Json))

/-- Wire-level `SamplingRequest`. -/
structure SamplingRequest where
  session_id : String
  extension_name : String
  messages : List SamplingMessage
  model_preferences : Option (List String)
  system_prompt : Option String
  include_context : Option String
  temperature : Option Float
  max_tokens : Int
  stop_sequences : Option (List String)
  metadata : Option Json

/-- Wire-level `SamplingResponse`. -/
structure SamplingResponse where
  message : SamplingMessage
  model : String
  stop_reason : Option String
deriving DecidableEq, Repr

/-- Wire-level `SamplingApprovalRequest`: the reviewer's decision. -/
structure SamplingApprovalRequest where
  session_id : String
  original_request : SamplingRequest
  action : String
  edited_messages : Option (List SamplingMessage)

/-- Internal conversation content
(`goose::conversation::message::MessageContent`).  Modelled from the
spec: the goose conversation crate is not part of this repository;
§4.4 describes text, image, and opaquely passed-through other kinds. -/
inductive MessageContent where
  | text (s : String)
  | image (data : String) (mimeType : String)
  | other (kind : String)
deriving DecidableEq, Repr

/-- Internal conversation message
(`goose::conversation::message::Message`).  Modelled from the spec: a
role with an ordered list of content blocks. -/
structure Message where
  role : Role
  content : List MessageContent
deriving DecidableEq, Repr

/-- `Message::user()`: a fresh user message with no content. -/
def Message.user : Message := { role := Role.user, content := [] }

/-- `Message::assistant()`: a fresh assistant message with no content. -/
def Message.assistant : Message := { role := Role.assistant, content := [] }

/-- `Message::with_text`: append a text content block. -/
def Message.with_text (m : Message) (t : String) : Message :=
  { m with content := m.content ++ [MessageContent.text t] }

/-- `Message::with_content`: append an arbitrary content block. -/
def Message.with_content (m : Message) (c : MessageContent) : Message :=
  { m with content := m.content ++ [c] }

/-- The `Content → MessageContent` conversion used by
`msg.content.clone().into()`.  Modelled from the spec: content kinds
beyond text and image are passed through opaquely, not rejected. -/
def Content.toMessageContent : Content → MessageContent
  | .text s => MessageContent.text s
  | .image d mt => MessageContent.image d mt
  | .other k => MessageContent.other k

/-- Provider usage report (`ProviderUsage`).  Modelled from the spec:
only the provider's reported model identifier is consumed here. -/
structure ProviderUsage where
  model : String
deriving DecidableEq, Repr

/-- The model provider capability.  `complete` takes the system prompt,
the translated messages and the (always empty) tool list, and either
fails — network, quota, malformed reply, all collapsed to one error —
or yields the reply message plus a usage report. -/
structure Provider where
  complete : String → List Message → List Unit → Except String (Message × ProviderUsage)

/-- The agent resolved for a session.  `get_provider` mirrors
`agent.extension_manager.get_provider()`, which may be absent. -/
structure Agent where
  get_provider : Option Provider

/-- HTTP status codes the handlers can produce. -/
inductive StatusCode where
  | BAD_REQUEST
  | INTERNAL_SERVER_ERROR
deriving DecidableEq, Repr

/-- Whether a status is client-class (4xx) as used by these routes. -/
def StatusCode.isClientError : StatusCode → Bool
  | .BAD_REQUEST => true
  | .INTERNAL_SERVER_ERROR => false

/-- The server state capability.  Modelled from the spec:
`get_agent_for_route` lives outside this file's source; §4.3 states
that a failed session→agent resolution is a server-side condition
surfaced to the caller as an internal error, so failure is modelled as
absence, turned into `INTERNAL_SERVER_ERROR` inside `process_sampling`. -/
structure AppState where
  get_agent_for_route : String → Option Agent

/-- Per-message wire→internal translation, as written in
`process_sampling`: same role; text content attached via `with_text`,
anything else attached as-is via the generic conversion. -/
def toGooseMessage (msg : SamplingMessage) : Message :=
  let message := match msg.role with
    | Role.user => Message.user
    | Role.assistant => Message.assistant
  match msg.content.asText with
  | some text => message.with_text text
  | none => message.with_content msg.content.toMessageContent

/-- The message-sequence translation `request.messages.iter().map(...)`. -/
def translateMessages (msgs : List SamplingMessage) : List Message :=
  msgs.map toGooseMessage

/-- The effective system prompt:
`request.system_prompt.as_deref().unwrap_or("You are a helpful assistant")`. -/
def effectiveSystemPrompt (request : SamplingRequest) : String :=
  request.system_prompt.getD "You are a helpful assistant"

/-- Outbound translation of the provider's reply: take the first content
block; text wraps as text, image as image, anything else or nothing
becomes empty text. -/
def extractResponseContent (response : Message) : Content :=
  match response.content.head? with
  | some (MessageContent.text t) => Content.text t
  | some (MessageContent.image d mt) => Content.image d mt
  | some (MessageContent.other _) => Content.text ""
  | none => Content.text ""

/-- The `process_sampling` routine: resolve the agent, obtain the
provider, translate the messages, call `complete`, translate the reply. -/
def process_sampling (state : AppState) (session_id : String)
    (request : SamplingRequest) : Except StatusCode SamplingResponse :=
  match state.get_agent_for_route session_id with
  | none => Except.error StatusCode.INTERNAL_SERVER_ERROR
  | some agent =>
    match agent.get_provider with
    | none => Except.error StatusCode.INTERNAL_SERVER_ERROR
    | some provider =>
      let messages := translateMessages request.messages
      let system_prompt := effectiveSystemPrompt request
      match Provider.complete provider system_prompt messages [] with
      | Except.error _ => Except.error StatusCode.INTERNAL_SERVER_ERROR
      | Except.ok (response, usage) =>
        Except.ok
          { message :=
              { role := Role.assistant
                content := extractResponseContent response }
            model := usage.model
            stop_reason := some "end_turn" }

/-- The resolution handler `handle_sampling_approval`: dispatch on the
action tag. -/
def handle_sampling_approval (state : AppState)
    (request : SamplingApprovalRequest) : Except StatusCode SamplingResponse :=
  if request.action = "approve" then
    process_sampling state request.session_id request.original_request
  else if request.action = "edit" then
    match request.edited_messages with
    | some edited_messages =>
      process_sampling state request.session_id
        { request.original_request with messages := edited_messages }
    | none => Except.error StatusCode.BAD_REQUEST
  else if request.action = "deny" then
    Except.ok
      { message :=
          { role := Role.assistant
            content := Content.text "Sampling request denied by user." }
        model := "none"
        stop_reason := some "user_denied" }
  else Except.error StatusCode.BAD_REQUEST

/-- The JSON payload returned by intake (`json!({"status": ..., "message": ...})`). -/
structure PendingPayload where
  status : String
  message : String
deriving DecidableEq, Repr

/-- The intake handler `handle_sampling_request`: ignores the state and
the request body and immediately reports pending. -/
def handle_sampling_request (_state : AppState) (_request : SamplingRequest) :
    Except StatusCode PendingPayload :=
  Except.ok
    { status := "pending"
      message := "Sampling request received. Awaiting user approval." }

/-! ### Concrete fixtures (stub capabilities, as the spec's §9 suggests) -/

/-- A concrete sampling request used to instantiate general theorems. -/
def stubRequest : SamplingRequest :=
  { session_id := "sess-1"
    extension_name := "calc"
    messages := [{ role := Role.user, content := Content.text "2+2?" }]
    model_preferences := none
    system_prompt := none
    include_context := none
    temperature := none
    max_tokens := 16
    stop_sequences := none
    metadata := none }

/-- A concrete provider reply. -/
def stubReply : Message :=
  { role := Role.assistant, content := [MessageContent.text "4"] }

/-- A stub provider that always succeeds with `stubReply`. -/
def stubProvider : Provider :=
  { complete := fun _ _ _ => Except.ok (stubReply, { model := "stub-1" }) }

/-- A stub agent holding `stubProvider`. -/
def stubAgent : Agent := { get_provider := some stubProvider }

/-- A state resolving every session to `stubAgent`. -/
def stubState : AppState := { get_agent_for_route := fun _ => some stubAgent }

/-- A state where no session resolves to an agent. -/
def emptyState : AppState := { get_agent_for_route := fun _ => none }

/-- A state whose agent has no provider configured. -/
def providerlessState : AppState :=
  { get_agent_for_route := fun _ => some { get_provider := none } }

/-- A state whose provider always fails to complete. -/
def failingState : AppState :=
  { get_agent_for_route := fun _ =>
      some { get_provider := some { complete := fun _ _ _ => Except.error "boom" } } }

/-- Build an approval request over `stubRequest`. -/
def mkApproval (action : String) (edited : Option (List SamplingMessage)) :
    SamplingApprovalRequest :=
  { session_id := "sess-1"
    original_request := stubRequest
    action := action
    edited_messages := edited }

/-! ### Dispatch helper lemmas -/

theorem handle_eq_of_approve (state : AppState) (request : SamplingApprovalRequest)
    (h : request.action = "approve") :
    handle_sampling_approval state request =
      process_sampling state request.session_id request.original_request := by
  simp [handle_sampling_approval, h]

theorem handle_eq_of_edit_some (state : AppState) (request : SamplingApprovalRequest)
    (ms : List SamplingMessage)
    (h : request.action = "edit") (he : request.edited_messages = some ms) :
    handle_sampling_approval state request =
      process_sampling state request.session_id
        { request.original_request with messages := ms } := by
  simp [handle_sampling_approval, h, he]

theorem handle_eq_of_edit_none (state : AppState) (request : SamplingApprovalRequest)
    (h : request.action = "edit") (he : request.edited_messages = none) :
    handle_sampling_approval state request = Except.error StatusCode.BAD_REQUEST := by
  simp [handle_sampling_approval, h, he]

theorem handle_eq_of_deny (state : AppState) (request : SamplingApprovalRequest)
    (h : request.action = "deny") :
    handle_sampling_approval state request =
      Except.ok
        { message :=
            { role := Role.assistant
              content := Content.text "Sampling request denied by user." }
          model := "none"
          stop_reason := some "user_denied" } := by
  simp [handle_sampling_approval, h]

theorem handle_eq_of_other (state : AppState) (request : SamplingApprovalRequest)
    (h1 : request.action ≠ "approve") (h2 : request.action ≠ "edit")
    (h3 : request.action ≠ "deny") :
    handle_sampling_approval state request = Except.error StatusCode.BAD_REQUEST := by
  simp [handle_sampling_approval, h1, h2, h3]

theorem process_eq_of_resolved (state : AppState) (session_id : String)
    (request : SamplingRequest) (agent : Agent) (provider : Provider)
    (ha : state.get_agent_for_route session_id = some agent)
    (hp : agent.get_provider = some provider) :
    process_sampling state session_id request =
      match Provider.complete provider (effectiveSystemPrompt request)
          (translateMessages request.messages) [] with
      | Except.error _ => Except.error StatusCode.INTERNAL_SERVER_ERROR
      | Except.ok (response, usage) =>
        Except.ok
          { message :=
              { role := Role.assistant
                content := extractResponseContent response }
            model := usage.model
            stop_reason := some "end_turn" } := by
  simp only [process_sampling, ha, hp]

theorem process_error_is_internal (state : AppState) (session_id : String)
    (request : SamplingRequest) (code : StatusCode)
    (h : process_sampling state session_id request = Except.error code) :
    code = StatusCode.INTERNAL_SERVER_ERROR := by
  unfold process_sampling at h
  split at h
  · simp_all
  · split at h
    · simp_all
    · dsimp only at h
      split at h
      · simp_all
      · simp_all

theorem process_ok_role (state : AppState) (session_id : String)
    (request : SamplingRequest) (resp : SamplingResponse)
    (h : process_sampling state session_id request = Except.ok resp) :
    resp.message.role = Role.assistant := by
  unfold process_sampling at h
  split at h
  · exact absurd h (by simp)
  · split at h
    · exact absurd h (by simp)
    · dsimp only at h
      split at h
      · exact absurd h (by simp)
      · injection h with h2
        rw [← h2]

theorem process_ignores_request_session_id (state : AppState) (session_id : String)
    (request : SamplingRequest) (sid : String) :
    process_sampling state session_id { request with session_id := sid } =
      process_sampling state session_id request := rfl

/-! ### Claim theorems -/

/-- Claim C1: for every approval request with action `deny`, resolution
returns the fixed denial response — role Assistant, text "Sampling request
denied by user.", model exactly "none", stop-reason exactly "user_denied" —
for every server state and original request, so the outcome involves no
agent lookup and no provider call. -/
theorem C1_deny_fixed_response (state : AppState) (request : SamplingApprovalRequest)
    (h : request.action = "deny") :
    handle_sampling_approval state request =
      Except.ok
        { message :=
            { role := Role.assistant
              content := Content.text "Sampling request denied by user." }
          model := "none"
          stop_reason := some "user_denied" } :=
  handle_eq_of_deny state request h

/-- Witness for C1 at a concrete denial over `stubRequest`. -/
theorem C1_deny_fixed_response_witness :
    (mkApproval "deny" none).action = "deny" ∧
    handle_sampling_approval stubState (mkApproval "deny" none) =
      Except.ok
        { message :=
            { role := Role.assistant
              content := Content.text "Sampling request denied by user." }
          model := "none"
          stop_reason := some "user_denied" } :=
  ⟨rfl, C1_deny_fixed_response stubState (mkApproval "deny" none) rfl⟩

/-- Claim C2 counterexample: with action `edit` and a replacement sequence
that is present but empty, resolution does not fail with the bad-request
status — the empty sequence is accepted and processed — refuting the claim
that an empty replacement yields the client error. -/
theorem C2_counterexample :
    (mkApproval "edit" (some [])).action = "edit" ∧
    (mkApproval "edit" (some [])).edited_messages = some [] ∧
    handle_sampling_approval stubState (mkApproval "edit" (some [])) ≠
      Except.error StatusCode.BAD_REQUEST := by
  refine ⟨rfl, rfl, ?_⟩
  intro hcontra
  have heval : handle_sampling_approval stubState (mkApproval "edit" (some [])) =
      Except.ok
        { message := { role := Role.assistant, content := Content.text "4" }
          model := "stub-1"
          stop_reason := some "end_turn" } := rfl
  rw [heval] at hcontra
  exact Except.noConfusion hcontra

/-- Claim C2 (amended): resolution returns a client-class (bad-request)
error exactly when the action tag is none of `approve`/`edit`/`deny`, or
when the action is `edit` and the replacement message sequence is absent;
a present replacement sequence is accepted even when empty, and no other
case yields a client-class error. -/
theorem C2_bad_request_iff (state : AppState) (request : SamplingApprovalRequest) :
    (∃ code, handle_sampling_approval state request = Except.error code ∧
        code.isClientError = true) ↔
      ((request.action ≠ "approve" ∧ request.action ≠ "edit" ∧
          request.action ≠ "deny") ∨
        (request.action = "edit" ∧ request.edited_messages = none)) := by
  constructor
  · rintro ⟨code, hc, hcl⟩
    by_cases h1 : request.action = "approve"
    · rw [handle_eq_of_approve state request h1] at hc
      rw [process_error_is_internal state request.session_id
        request.original_request code hc] at hcl
      exact absurd hcl (by simp [StatusCode.isClientError])
    · by_cases h2 : request.action = "edit"
      · cases he : request.edited_messages with
        | some ms =>
          rw [handle_eq_of_edit_some state request ms h2 he] at hc
          rw [process_error_is_internal state request.session_id
            { request.original_request with messages := ms } code hc] at hcl
          exact absurd hcl (by simp [StatusCode.isClientError])
        | none => exact Or.inr ⟨h2, rfl⟩
      · by_cases h3 : request.action = "deny"
        · rw [handle_eq_of_deny state request h3] at hc
          exact absurd hc (by simp)
        · exact Or.inl ⟨h1, h2, h3⟩
  · rintro (⟨h1, h2, h3⟩ | ⟨h2, he⟩)
    · exact ⟨StatusCode.BAD_REQUEST, handle_eq_of_other state request h1 h2 h3, rfl⟩
    · exact ⟨StatusCode.BAD_REQUEST, handle_eq_of_edit_none state request h2 he, rfl⟩

/-- Claim C3: for every approval request with action `approve` whose
session resolves to an agent with a provider, the completion call receives
exactly the translation of the original request's message sequence — the
elementwise, order-preserving map of `toGooseMessage` over the original
messages — together with the original request's effective system prompt. -/
theorem C3_approve_forwards_original (state : AppState)
    (request : SamplingApprovalRequest) (agent : Agent) (provider : Provider)
    (hact : request.action = "approve")
    (ha : state.get_agent_for_route request.session_id = some agent)
    (hp : agent.get_provider = some provider) :
    handle_sampling_approval state request =
      (match Provider.complete provider
          (effectiveSystemPrompt request.original_request)
          (translateMessages request.original_request.messages) [] with
        | Except.error _ => Except.error StatusCode.INTERNAL_SERVER_ERROR
        | Except.ok (response, usage) =>
          Except.ok
            { message :=
                { role := Role.assistant
                  content := extractResponseContent response }
              model := usage.model
              stop_reason := some "end_turn" }) ∧
    translateMessages request.original_request.messages =
      request.original_request.messages.map toGooseMessage := by
  refine ⟨?_, rfl⟩
  rw [handle_eq_of_approve state request hact]
  exact process_eq_of_resolved state request.session_id
    request.original_request agent provider ha hp

/-- Witness for C3 at a concrete approval over `stubRequest` and the stub
capabilities. -/
theorem C3_approve_forwards_original_witness :
    handle_sampling_approval stubState (mkApproval "approve" none) =
      (match Provider.complete stubProvider (effectiveSystemPrompt stubRequest)
          (translateMessages stubRequest.messages) [] with
        | Except.error _ => Except.error StatusCode.INTERNAL_SERVER_ERROR
        | Except.ok (response, usage) =>
          Except.ok
            { message :=
                { role := Role.assistant
                  content := extractResponseContent response }
              model := usage.model
              stop_reason := some "end_turn" }) ∧
    translateMessages stubRequest.messages =
      stubRequest.messages.map toGooseMessage :=
  C3_approve_forwards_original stubState (mkApproval "approve" none)
    stubAgent stubProvider rfl rfl rfl

/-- Claim C4: for every approval request with action `edit` carrying a
replacement message sequence, the request handed to Process is a copy of
the original in which only the message sequence is replaced — session
identifier, extension name, model preferences, system prompt, context
flag, temperature, max-token bound, stop sequences and metadata are all
unchanged — and the completion call receives the translation of the
replacement sequence, never the original one. -/
theorem C4_edit_substitutes_replacement (state : AppState)
    (request : SamplingApprovalRequest) (ms : List SamplingMessage)
    (agent : Agent) (provider : Provider)
    (hact : request.action = "edit")
    (hms : request.edited_messages = some ms)
    (ha : state.get_agent_for_route request.session_id = some agent)
    (hp : agent.get_provider = some provider) :
    handle_sampling_approval state request =
      process_sampling state request.session_id
        { request.original_request with messages := ms } ∧
    ({ request.original_request with messages := ms } : SamplingRequest).messages = ms ∧
    ({ request.original_request with messages := ms } : SamplingRequest).session_id =
      request.original_request.session_id ∧
    ({ request.original_request with messages := ms } : SamplingRequest).extension_name =
      request.original_request.extension_name ∧
    ({ request.original_request with messages := ms } : SamplingRequest).model_preferences =
      request.original_request.model_preferences ∧
    ({ request.original_request with messages := ms } : SamplingRequest).system_prompt =
      request.original_request.system_prompt ∧
    ({ request.original_request with messages := ms } : SamplingRequest).include_context =
      request.original_request.include_context ∧
    ({ request.original_request with messages := ms } : SamplingRequest).temperature =
      request.original_request.temperature ∧
    ({ request.original_request with messages := ms } : SamplingRequest).max_tokens =
      request.original_request.max_tokens ∧
    ({ request.original_request with messages := ms } : SamplingRequest).stop_sequences =
      request.original_request.stop_sequences ∧
    ({ request.original_request with messages := ms } : SamplingRequest).metadata =
      request.original_request.metadata ∧
    handle_sampling_approval state request =
      (match Provider.complete provider
          (effectiveSystemPrompt request.original_request)
          (translateMessages ms) [] with
        | Except.error _ => Except.error StatusCode.INTERNAL_SERVER_ERROR
        | Except.ok (response, usage) =>
          Except.ok
            { message :=
                { role := Role.assistant
                  content := extractResponseContent response }
              model := usage.model
              stop_reason := some "end_turn" }) := by
  refine ⟨handle_eq_of_edit_some state request ms hact hms,
    rfl, rfl, rfl, rfl, rfl, rfl, rfl, rfl, rfl, rfl, ?_⟩
  rw [handle_eq_of_edit_some state request ms hact hms]
  exact process_eq_of_resolved state request.session_id
    { request.original_request with messages := ms } agent provider ha hp

/-- Witness for C4 at a concrete edit decision replacing the original
message with a different one, over the stub capabilities. -/
theorem C4_edit_substitutes_replacement_witness :
    handle_sampling_approval stubState
      (mkApproval "edit" (some [{ role := Role.user, content := Content.text "3+3?" }])) =
      process_sampling stubState "sess-1"
        { stubRequest with
            messages := [{ role := Role.user, content := Content.text "3+3?" }] } ∧
    ({ stubRequest with
        messages := [{ role := Role.user, content := Content.text "3+3?" }] } :
      SamplingRequest).messages =
        [{ role := Role.user, content := Content.text "3+3?" }] ∧
    ({ stubRequest with
        messages := [{ role := Role.user, content := Content.text "3+3?" }] } :
      SamplingRequest).session_id = stubRequest.session_id ∧
    ({ stubRequest with
        messages := [{ role := Role.user, content := Content.text "3+3?" }] } :
      SamplingRequest).extension_name = stubRequest.extension_name ∧
    ({ stubRequest with
        messages := [{ role := Role.user, content := Content.text "3+3?" }] } :
      SamplingRequest).model_preferences = stubRequest.model_preferences ∧
    ({ stubRequest with
        messages := [{ role := Role.user, content := Content.text "3+3?" }] } :
      SamplingRequest).system_prompt = stubRequest.system_prompt ∧
    ({ stubRequest with
        messages := [{ role := Role.user, content := Content.text "3+3?" }] } :
      SamplingRequest).include_context = stubRequest.include_context ∧
    ({ stubRequest with
        messages := [{ role := Role.user, content := Content.text "3+3?" }] } :
      SamplingRequest).temperature = stubRequest.temperature ∧
    ({ stubRequest with
        messages := [{ role := Role.user, content := Content.text "3+3?" }] } :
      SamplingRequest).max_tokens = stubRequest.max_tokens ∧
    ({ stubRequest with
        messages := [{ role := Role.user, content := Content.text "3+3?" }] } :
      SamplingRequest).stop_sequences = stubRequest.stop_sequences ∧
    ({ stubRequest with
        messages := [{ role := Role.user, content := Content.text "3+3?" }] } :
      SamplingRequest).metadata = stubRequest.metadata ∧
    handle_sampling_approval stubState
      (mkApproval "edit" (some [{ role := Role.user, content := Content.text "3+3?" }])) =
      (match Provider.complete stubProvider (effectiveSystemPrompt stubRequest)
          (translateMessages [{ role := Role.user, content := Content.text "3+3?" }]) [] with
        | Except.error _ => Except.error StatusCode.INTERNAL_SERVER_ERROR
        | Except.ok (response, usage) =>
          Except.ok
            { message :=
                { role := Role.assistant
                  content := extractResponseContent response }
              model := usage.model
              stop_reason := some "end_turn" }) :=
  C4_edit_substitutes_replacement stubState
    (mkApproval "edit" (some [{ role := Role.user, content := Content.text "3+3?" }]))
    [{ role := Role.user, content := Content.text "3+3?" }]
    stubAgent stubProvider rfl rfl rfl rfl

/-- Claim C5: intake returns successfully for every state and request with
the fixed pending payload (status "pending"); it has no failure outcome,
and the result is the same for every server state, so no agent lookup or
provider call can influence or be required by it. -/
theorem C5_intake_pending (state : AppState) (request : SamplingRequest) :
    handle_sampling_request state request =
      Except.ok
        { status := "pending"
          message := "Sampling request received. Awaiting user approval." } ∧
    (∀ state2 : AppState,
      handle_sampling_request state2 request = handle_sampling_request state request) :=
  ⟨rfl, fun _ => rfl⟩

/-- Claim C6: on every successful approve/edit completion, the response
carries the provider's reported model identifier, stop-reason exactly
"end_turn", and content taken from the first content block of the reply —
text wrapped as text, image wrapped as image, any other or absent kind
degrading to empty text. -/
theorem C6_success_response_shape (state : AppState) (session_id : String)
    (request : SamplingRequest) (agent : Agent) (provider : Provider)
    (reply : Message) (usage : ProviderUsage)
    (ha : state.get_agent_for_route session_id = some agent)
    (hp : agent.get_provider = some provider)
    (hc : Provider.complete provider (effectiveSystemPrompt request)
        (translateMessages request.messages) [] = Except.ok (reply, usage)) :
    process_sampling state session_id request =
      Except.ok
        { message :=
            { role := Role.assistant
              content := extractResponseContent reply }
          model := usage.model
          stop_reason := some "end_turn" } ∧
    (∀ t, reply.content.head? = some (MessageContent.text t) →
      extractResponseContent reply = Content.text t) ∧
    (∀ d mt, reply.content.head? = some (MessageContent.image d mt) →
      extractResponseContent reply = Content.image d mt) ∧
    (∀ k, reply.content.head? = some (MessageContent.other k) →
      extractResponseContent reply = Content.text "") ∧
    (reply.content.head? = none → extractResponseContent reply = Content.text "") := by
  refine ⟨?_, ?_, ?_, ?_, ?_⟩
  · rw [process_eq_of_resolved state session_id request agent provider ha hp, hc]
  · intro t ht
    simp [extractResponseContent, ht]
  · intro d mt ht
    simp [extractResponseContent, ht]
  · intro k ht
    simp [extractResponseContent, ht]
  · intro ht
    simp [extractResponseContent, ht]

/-- Witness for C6 at the stub capabilities, whose reply is the single
text block "4" reported by model "stub-1". -/
theorem C6_success_response_shape_witness :
    process_sampling stubState "sess-1" stubRequest =
      Except.ok
        { message :=
            { role := Role.assistant
              content := extractResponseContent stubReply }
          model := "stub-1"
          stop_reason := some "end_turn" } ∧
    (∀ t, stubReply.content.head? = some (MessageContent.text t) →
      extractResponseContent stubReply = Content.text t) ∧
    (∀ d mt, stubReply.content.head? = some (MessageContent.image d mt) →
      extractResponseContent stubReply = Content.image d mt) ∧
    (∀ k, stubReply.content.head? = some (MessageContent.other k) →
      extractResponseContent stubReply = Content.text "") ∧
    (stubReply.content.head? = none → extractResponseContent stubReply = Content.text "") :=
  C6_success_response_shape stubState "sess-1" stubRequest stubAgent stubProvider
    stubReply { model := "stub-1" } rfl rfl rfl

/-- Claim C7: on the approve/edit processing path, a failed session→agent
resolution, an agent without a provider, and a failed provider completion
each make processing fail with the internal-server-error status, whose
error value carries nothing but the status code. -/
theorem C7_failures_internal_error (state : AppState) (session_id : String)
    (request : SamplingRequest) :
    (state.get_agent_for_route session_id = none →
      process_sampling state session_id request =
        Except.error StatusCode.INTERNAL_SERVER_ERROR) ∧
    (∀ agent, state.get_agent_for_route session_id = some agent →
      agent.get_provider = none →
      process_sampling state session_id request =
        Except.error StatusCode.INTERNAL_SERVER_ERROR) ∧
    (∀ agent provider e, state.get_agent_for_route session_id = some agent →
      agent.get_provider = some provider →
      Provider.complete provider (effectiveSystemPrompt request)
        (translateMessages request.messages) [] = Except.error e →
      process_sampling state session_id request =
        Except.error StatusCode.INTERNAL_SERVER_ERROR) := by
  refine ⟨?_, ?_, ?_⟩
  · intro h
    simp [process_sampling, h]
  · intro agent ha hp
    simp [process_sampling, ha, hp]
  · intro agent provider e ha hp hc
    simp [process_sampling, ha, hp, hc]

/-- Witness for C7: all three failure shapes at concrete states. -/
theorem C7_failures_internal_error_witness :
    process_sampling emptyState "sess-1" stubRequest =
      Except.error StatusCode.INTERNAL_SERVER_ERROR ∧
    process_sampling providerlessState "sess-1" stubRequest =
      Except.error StatusCode.INTERNAL_SERVER_ERROR ∧
    process_sampling failingState "sess-1" stubRequest =
      Except.error StatusCode.INTERNAL_SERVER_ERROR :=
  ⟨(C7_failures_internal_error emptyState "sess-1" stubRequest).1 rfl,
    (C7_failures_internal_error providerlessState "sess-1" stubRequest).2.1
      { get_provider := none } rfl rfl,
    (C7_failures_internal_error failingState "sess-1" stubRequest).2.2
      { get_provider := some { complete := fun _ _ _ => Except.error "boom" } }
      { complete := fun _ _ _ => Except.error "boom" } "boom" rfl rfl rfl⟩

/-- Claim C8: translating a plain-text SamplingMessage to the internal
conversation form preserves its role, and translating the internal form
back through the first-content-block rule yields the original text
content. -/
theorem C8_text_round_trip (msg : SamplingMessage) (s : String)
    (h : msg.content = Content.text s) :
    (toGooseMessage msg).role = msg.role ∧
    extractResponseContent (toGooseMessage msg) = msg.content := by
  obtain ⟨role, content⟩ := msg
  simp only at h
  subst h
  cases role <;>
    simp [toGooseMessage, Content.asText, Message.user, Message.assistant,
      Message.with_text, extractResponseContent]

/-- Witness for C8 at a concrete text message. -/
theorem C8_text_round_trip_witness :
    (toGooseMessage { role := Role.user, content := Content.text "2+2?" }).role =
      Role.user ∧
    extractResponseContent
        (toGooseMessage { role := Role.user, content := Content.text "2+2?" }) =
      Content.text "2+2?" :=
  C8_text_round_trip { role := Role.user, content := Content.text "2+2?" } "2+2?" rfl

/-- Claim C9: every SamplingResponse the decision handler returns — on the
deny path and on the successful approve/edit path alike — has a message
whose role is Assistant, whatever role the provider's reply carried. -/
theorem C9_response_role_assistant (state : AppState)
    (request : SamplingApprovalRequest) (resp : SamplingResponse)
    (h : handle_sampling_approval state request = Except.ok resp) :
    resp.message.role = Role.assistant := by
  unfold handle_sampling_approval at h
  split at h
  · exact process_ok_role state request.session_id request.original_request resp h
  · split at h
    · split at h
      · exact process_ok_role state request.session_id _ resp h
      · exact absurd h (by simp)
    · split at h
      · injection h with h2
        rw [← h2]
      · exact absurd h (by simp)

/-- Witness for C9: the denial response of a concrete deny decision, even
though the state's provider would reply with a user-role message. -/
theorem C9_response_role_assistant_witness :
    ({ message :=
        { role := Role.assistant
          content := Content.text "Sampling request denied by user." }
       model := "none"
       stop_reason := some "user_denied" } : SamplingResponse).message.role =
      Role.assistant :=
  C9_response_role_assistant emptyState (mkApproval "deny" none) _ rfl

/-- Claim C10: the outcome of the decision handler never depends on the
session identifier embedded inside the original SamplingRequest — only the
approval request's own top-level session identifier is used — so two
approval requests differing only in that inner field produce the same
outcome for every server state. -/
theorem C10_inner_session_id_ignored (state : AppState)
    (request : SamplingApprovalRequest) (sid : String) :
    handle_sampling_approval state
      { request with
          original_request := { request.original_request with session_id := sid } } =
    handle_sampling_approval state request := by
  obtain ⟨rsid, orig, action, edited⟩ := request
  by_cases h1 : action = "approve"
  · rw [handle_eq_of_approve state
        ⟨rsid, { orig with session_id := sid }, action, edited⟩ h1,
      handle_eq_of_approve state ⟨rsid, orig, action, edited⟩ h1]
    exact process_ignores_request_session_id state rsid orig sid
  · by_cases h2 : action = "edit"
    · cases edited with
      | some ms =>
        rw [handle_eq_of_edit_some state
            ⟨rsid, { orig with session_id := sid }, action, some ms⟩ ms h2 rfl,
          handle_eq_of_edit_some state ⟨rsid, orig, action, some ms⟩ ms h2 rfl]
        exact process_ignores_request_session_id state rsid
          { orig with messages := ms } sid
      | none =>
        rw [handle_eq_of_edit_none state
            ⟨rsid, { orig with session_id := sid }, action, none⟩ h2 rfl,
          handle_eq_of_edit_none state ⟨rsid, orig, action, none⟩ h2 rfl]
    · by_cases h3 : action = "deny"
      · rw [handle_eq_of_deny state
            ⟨rsid, { orig with session_id := sid }, action, edited⟩ h3,
          handle_eq_of_deny state ⟨rsid, orig, action, edited⟩ h3]
      · rw [handle_eq_of_other state
            ⟨rsid, { orig with session_id := sid }, action, edited⟩ h1 h2 h3,
          handle_eq_of_other state ⟨rsid, orig, action, edited⟩ h1 h2 h3]

end Sampling
